import Mathlib

/-!
Verification development for the chem_canvas repository.

The repository consists of two Python adapters:
  * `huggingface-scholarly-api/app.py` — a FastAPI wrapper around the
    `scholarly` library (publication search / citations / similar papers /
    BibTeX endpoints), and
  * `netlify/functions/ocr_extract.py` — a Netlify serverless handler that
    runs PaddleOCR over an uploaded or fetched image.

This file gives a shallow embedding of the response-shaping logic of both
adapters.  Python's dynamically-typed values are modelled by `PyVal`,
dictionaries by association lists, exceptions by `Except String`, and the
external collaborators (the `scholarly` search iterators, `scholarly.fill`,
base64 decoding, `urllib` retrieval and the PaddleOCR calls) by explicit
oracle parameters.  The transient temp-file of the OCR handler is modelled by
two booleans threaded through the handler's result (created / still exists).

Python built-ins used by the code (`str.split`, `str.strip`, `str.lower`,
`int(...)`, truthiness, `x or y`, `in`, `str(...)`) are modelled by
executable functions defined below (`pySplitOn`, `pyStrip`, `pyLower`,
`pyInt`, `pyTruthy`, `pyOr`, `pyIn`, `pyStr`).  The model is ASCII-faithful
for case conversion, and confidence scores (Python floats) are abstracted to
integers — no claim depends on either.
-/

/-- Model of a dynamically-typed Python value, sufficient for the data that
flows through the two adapters (strings, ints, bools, None, lists, dicts). -/
inductive PyVal where
  | str (s : String)
  | int (n : Int)
  | bool (b : Bool)
  | none
  | list (xs : List PyVal)
  | dict (entries : List (String × PyVal))

/-- A Python dict with string keys, as an association list (first match wins;
the dicts built by the code have distinct keys). -/
abbrev PyDict := List (String × PyVal)

/-- `d.get(k, dflt)` on a dict. -/
def lookupD (d : PyDict) (k : String) (dflt : PyVal) : PyVal :=
  match d.find? (fun e => e.1 == k) with
  | some e => e.2
  | Option.none => dflt

/-- `k in d` for a dict: key presence. -/
def hasKey (d : PyDict) (k : String) : Bool :=
  (d.find? (fun e => e.1 == k)).isSome

/-- Python truthiness of a value. -/
def pyTruthy : PyVal → Bool
  | .str s => !s.isEmpty
  | .int n => n != 0
  | .bool b => b
  | .none => false
  | .list xs => !xs.isEmpty
  | .dict d => !d.isEmpty

/-- Python `a or b` (returns the first truthy operand, else the second). -/
def pyOr (a b : PyVal) : PyVal :=
  if pyTruthy a then a else b

/-- `v.get(k, dflt)` on an arbitrary value: raises `AttributeError` unless
`v` is a dict. -/
def pyGet : PyVal → String → PyVal → Except String PyVal
  | .dict d, k, dflt => .ok (lookupD d k dflt)
  | _, _, _ => .error "AttributeError"

/-- Method-call receiver check for a string method such as `.lower()` or
`.split()`: raises `AttributeError` unless the value is a string. -/
def pyAttrStr : PyVal → Except String String
  | .str s => .ok s
  | _ => .error "AttributeError"

/-- Helper for `pySplitOn`: split a character list at each occurrence of the
(non-empty) separator, with fuel for termination. -/
def pySplitAux (sep : List Char) : Nat → List Char → List Char → List (List Char)
  | _, [], acc => [acc.reverse]
  | 0, l, acc => [acc.reverse ++ l]
  | fuel+1, c :: rest, acc =>
    if sep.isPrefixOf (c :: rest) then
      acc.reverse :: pySplitAux sep fuel (List.drop sep.length (c :: rest)) []
    else
      pySplitAux sep fuel rest (c :: acc)

/-- Python `s.split(sep)` for a non-empty separator: always returns at least
one piece; in particular `"".split(sep) == [""]`. -/
def pySplitOn (s sep : String) : List String :=
  if sep.isEmpty then [s]
  else (pySplitAux sep.data (s.data.length + 1) s.data []).map String.mk

/-- Helper for `pySplitWs`. -/
def pySplitWsAux : List Char → List Char → List (List Char)
  | [], acc => if acc.isEmpty then [] else [acc.reverse]
  | c :: rest, acc =>
    if c.isWhitespace then
      (if acc.isEmpty then pySplitWsAux rest [] else acc.reverse :: pySplitWsAux rest [])
    else
      pySplitWsAux rest (c :: acc)

/-- Python `s.split()` (no separator): split on whitespace runs, dropping
empty pieces. -/
def pySplitWs (s : String) : List String :=
  (pySplitWsAux s.data []).map String.mk

/-- Drop leading whitespace from a character list. -/
def dropWsChars : List Char → List Char
  | [] => []
  | c :: rest => if c.isWhitespace then dropWsChars rest else c :: rest

/-- Python `s.strip()`. -/
def pyStrip (s : String) : String :=
  String.mk ((dropWsChars ((dropWsChars s.data).reverse)).reverse)

/-- Python `s.lower()` (ASCII model). -/
def pyLower (s : String) : String :=
  String.mk (s.data.map Char.toLower)

/-- Python `sep.join(pieces)`. -/
def strJoin (sep : String) : List String → String
  | [] => ""
  | [x] => x
  | x :: rest => x ++ sep ++ strJoin sep rest

/-- Helper for `pyIntOfString`: parse a non-empty all-digit character list. -/
def digitsToNatAux : List Char → Nat → Option Nat
  | [], acc => some acc
  | c :: rest, acc =>
    if c.isDigit then digitsToNatAux rest (acc * 10 + (c.toNat - 48))
    else Option.none

/-- Python `int(s)` on a string: strip whitespace, optional sign, decimal
digits; `Option.none` when the conversion raises `ValueError`. -/
def pyIntOfString (s : String) : Option Int :=
  match (pyStrip s).data with
  | [] => Option.none
  | c :: rest =>
    if c == '-' then
      match rest with
      | [] => Option.none
      | _ => (digitsToNatAux rest 0).map (fun n => -(n : Int))
    else if c == '+' then
      match rest with
      | [] => Option.none
      | _ => (digitsToNatAux rest 0).map (fun n => (n : Int))
    else (digitsToNatAux (c :: rest) 0).map (fun n => (n : Int))

/-- Python `int(v)` on an arbitrary value. -/
def pyInt : PyVal → Except String Int
  | .int n => .ok n
  | .bool b => .ok (if b then 1 else 0)
  | .str s =>
    match pyIntOfString s with
    | some n => .ok n
    | Option.none => .error "ValueError"
  | _ => .error "TypeError"

/-- Substring containment, `sub in s` for strings. -/
def pyInStr (sub s : String) : Bool :=
  sub.isEmpty || (pySplitOn s sub).length != 1

mutual

/-- Python equality `==` between values (element-wise on containers). -/
def pyBeq : PyVal → PyVal → Bool
  | .str a, .str b => a == b
  | .int a, .int b => a == b
  | .bool a, .bool b => a == b
  | .none, .none => true
  | .list a, .list b => pyBeqList a b
  | .dict a, .dict b => pyBeqDict a b
  | _, _ => false

/-- Element-wise `pyBeq` on lists. -/
def pyBeqList : List PyVal → List PyVal → Bool
  | [], [] => true
  | a :: as_, b :: bs => pyBeq a b && pyBeqList as_ bs
  | _, _ => false

/-- Entry-wise `pyBeq` on dict entry lists. -/
def pyBeqDict : List (String × PyVal) → List (String × PyVal) → Bool
  | [], [] => true
  | (ka, va) :: as_, (kb, vb) :: bs => ka == kb && pyBeq va vb && pyBeqDict as_ bs
  | _, _ => false

end

/-- Python `x in v` for a string `x`: key test on dicts, substring test on
strings, membership on lists, `TypeError` otherwise. -/
def pyIn (x : String) : PyVal → Except String Bool
  | .dict d => .ok (hasKey d x)
  | .str s => .ok (pyInStr x s)
  | .list xs => .ok (xs.any (fun v => pyBeq v (.str x)))
  | _ => .error "TypeError"

mutual

/-- Python `str(v)`. -/
def pyStr : PyVal → String
  | .str s => s
  | .int n => toString n
  | .bool b => if b then "True" else "False"
  | .none => "None"
  | .list xs => "[" ++ strJoin ", " (pyReprList xs) ++ "]"
  | .dict d => "\x7b" ++ strJoin ", " (pyReprEntries d) ++ "\x7d"

/-- Python `repr(v)` (string escaping inside quotes not modelled). -/
def pyRepr : PyVal → String
  | .str s => "\x27" ++ s ++ "\x27"
  | .int n => toString n
  | .bool b => if b then "True" else "False"
  | .none => "None"
  | .list xs => "[" ++ strJoin ", " (pyReprList xs) ++ "]"
  | .dict d => "\x7b" ++ strJoin ", " (pyReprEntries d) ++ "\x7d"

/-- `repr` of each element of a list. -/
def pyReprList : List PyVal → List String
  | [] => []
  | x :: xs => pyRepr x :: pyReprList xs

/-- `repr`-rendered entries of a dict. -/
def pyReprEntries : List (String × PyVal) → List String
  | [] => []
  | (k, v) :: xs => ("\x27" ++ k ++ "\x27: " ++ pyRepr v) :: pyReprEntries xs

end

/-!
Scholarly API data model (`app.py`, Pydantic models and `parse_publication`).
-/

/-- The `Publication` Pydantic model of `app.py` (lines 57-66). -/
structure Publication where
  title : String
  authors : List String
  year : Option Int
  abstract : Option String
  venue : Option String
  citations : Option Int
  url : Option String
  bibtex : Option String
  scholar_url : Option String
deriving DecidableEq, Repr

/-- Pydantic validation of a required `str` field (no numeric coercion). -/
def vStr : PyVal → Except String String
  | .str s => .ok s
  | _ => .error "ValidationError"

/-- Pydantic validation of an `Optional[str]` field. -/
def vOptStr : PyVal → Except String (Option String)
  | PyVal.none => .ok Option.none
  | .str s => .ok (some s)
  | _ => .error "ValidationError"

/-- Pydantic validation of an `Optional[int]` field (numeric strings are
coerced, other values rejected). -/
def vOptInt : PyVal → Except String (Option Int)
  | PyVal.none => .ok Option.none
  | .int n => .ok (some n)
  | .str s =>
    match pyIntOfString s with
    | some n => .ok (some n)
    | Option.none => .error "ValidationError"
  | _ => .error "ValidationError"

/-- Element-wise validation for `List[str]`. -/
def vListStrAux : List PyVal → Except String (List String)
  | [] => .ok []
  | x :: xs => (vStr x).bind fun s => (vListStrAux xs).map fun ss => s :: ss

/-- Pydantic validation of a `List[str]` field. -/
def vListStr : PyVal → Except String (List String)
  | .list xs => vListStrAux xs
  | _ => .error "ValidationError"

/-- Construction `Publication(...)` with Pydantic validation of every field;
an invalid field raises a `ValidationError` caught by the caller's
`except` clause. -/
def mkPublication (t a y ab v c u bx su : PyVal) : Except String Publication :=
  match vStr t, vListStr a, vOptInt y, vOptStr ab, vOptStr v, vOptInt c,
        vOptStr u, vOptStr bx, vOptStr su with
  | .ok title, .ok authors, .ok year, .ok abstract, .ok venue, .ok citations,
    .ok url, .ok bibtex, .ok scholar_url =>
    .ok ⟨title, authors, year, abstract, venue, citations, url, bibtex, scholar_url⟩
  | _, _, _, _, _, _, _, _, _ => .error "ValidationError"

/-- Author normalization of `parse_publication` (app.py lines 95-101): a
string is split on " and " and each name stripped, a list is kept as is,
anything else becomes the empty list. -/
def normalize_authors : PyVal → PyVal
  | .str s => .list ((pySplitOn s " and ").map (fun a => PyVal.str (pyStrip a)))
  | .list xs => .list xs
  | _ => .list []

/-- Year normalization of `parse_publication` (app.py lines 103-109):
`year = bib.get('pub_year') or bib.get('year'); if year: int(year) or None`.
A falsy year value is left unchanged. -/
def normalize_year (y : PyVal) : PyVal :=
  if pyTruthy y then
    match pyInt y with
    | .ok n => PyVal.int n
    | .error _ => PyVal.none
  else y

/-- The `try` body of `parse_publication` (app.py lines 92-121), after the
optional `scholarly.fill`: extract `bib`, normalize authors and year, and
construct the `Publication`. -/
def parse_publication_try (pub : PyDict) : Except String Publication :=
  let bib := lookupD pub "bib" (.dict [])
  (pyGet bib "author" (.str "")).bind fun authorsRaw =>
  (pyGet bib "pub_year" PyVal.none).bind fun y1 =>
  (pyGet bib "year" PyVal.none).bind fun y2 =>
  (pyGet bib "title" (.str "Unknown Title")).bind fun titleV =>
  (pyGet bib "abstract" (.str "")).bind fun abstractV =>
  (pyGet bib "venue" (.str "")).bind fun v1 =>
  (pyGet bib "journal" (.str "")).bind fun v2 =>
  (pyGet bib "booktitle" (.str "")).bind fun v3 =>
  mkPublication titleV (normalize_authors authorsRaw) (normalize_year (pyOr y1 y2))
    abstractV (pyOr v1 (pyOr v2 v3))
    (lookupD pub "num_citations" (.int 0))
    (lookupD pub "pub_url" (.str ""))
    (lookupD pub "bibtex" (.str ""))
    (lookupD pub "url_scholarbib" (.str ""))

/-- The `except` branch of `parse_publication` (app.py lines 122-128):
`Publication(title=str(pub.get('bib', {}).get('title', 'Unknown')),
authors=[], year=None)`.  Note that `.get('title', ...)` itself raises when
the record's `bib` value is not a mapping. -/
def parse_salvage (pub : PyDict) : Except String Publication :=
  (pyGet (lookupD pub "bib" (.dict [])) "title" (.str "Unknown")).map fun t =>
  { title := pyStr t, authors := [], year := Option.none,
    abstract := Option.none, venue := Option.none, citations := Option.none,
    url := Option.none, bibtex := Option.none, scholar_url := Option.none }

/-- `parse_publication` (app.py lines 86-128).  `fill` is the external
`scholarly.fill` oracle, invoked only when `fill_details` is true; if the
`try` body (including `fill`) raises, the `except` branch salvages a minimal
`Publication` from the record bound to `pub` at that point. -/
def parse_publication (pub : PyDict) (fill_details : Bool)
    (fill : PyDict → Except String PyDict) : Except String Publication :=
  match (if fill_details then fill pub else .ok pub) with
  | .error _ => parse_salvage pub
  | .ok pub2 =>
    match parse_publication_try pub2 with
    | .ok p => .ok p
    | .error _ => parse_salvage pub2

/-- Placeholder `fill` oracle for call sites that pass
`fill_details=False`, where the oracle is never consulted. -/
def noFill : PyDict → Except String PyDict := fun _ => .error "unused"

/-- Total wrapper around `parse_publication` with `fill_details=False`,
used to state list-level characterizations (it agrees with
`parse_publication` whenever the latter succeeds). -/
def parsePubD (pub : PyDict) : Publication :=
  match parse_publication pub false noFill with
  | .ok p => p
  | .error _ => ⟨"", [], Option.none, Option.none, Option.none, Option.none,
                 Option.none, Option.none, Option.none⟩

/-!
Scholarly API endpoints (`app.py`).  External search iterators are modelled
as `Except String (List PyDict)` oracles: `.error` when the library call
itself raises, `.ok` with the streamed records otherwise.  An endpoint
returns `Except (Nat × String) r`: `.error (status, detail)` models a raised
`HTTPException`.
-/

/-- The `SearchResult` Pydantic model (app.py lines 68-71). -/
structure SearchResult where
  publications : List Publication
  total_results : Option Int
  query : String
deriving DecidableEq, Repr

/-- The `SimilarPapersResult` Pydantic model (app.py lines 78-80). -/
structure SimilarPapersResult where
  similar_papers : List Publication
  original_title : String
deriving DecidableEq, Repr

/-- The result-accumulation loop of `search_publications` (app.py lines
164-167) applied to the records the loop examines: normalize each record,
propagating any exception `parse_publication` lets escape. -/
def parse_stream : List PyDict → Except String (List Publication)
  | [] => .ok []
  | p :: rest =>
    (parse_publication p false noFill).bind fun q =>
    (parse_stream rest).map fun qs => q :: qs

/-- `search_publications` (app.py lines 149-175): stream at most `limit`
records, normalize each without detail expansion, and return them with the
count and the echoed query; any exception becomes a 500 error. -/
def search_publications (query : String) (limit : Nat)
    (search : Except String (List PyDict)) : Except (Nat × String) SearchResult :=
  match search.bind (fun pubs =>
      (parse_stream (pubs.take limit)).map (fun ps =>
        SearchResult.mk ps (some (ps.length : Int)) query)) with
  | .ok r => .ok r
  | .error e => .error (500, "Search failed: " ++ e)

/-- The filtering loop of `get_similar_papers` (app.py lines 277-283): the
fuel argument is `limit + 1`, the number of stream entries the loop examines
before `break`; an entry whose title matches the original title
case-insensitively is skipped, the others are normalized. -/
def similar_loop (original_title : String) : Nat → List PyDict → Except String (List Publication)
  | _, [] => .ok []
  | 0, _ :: _ => .ok []
  | fuel+1, pub :: rest =>
    (pyGet (lookupD pub "bib" (.dict [])) "title" (.str "")).bind fun tV =>
    (pyAttrStr tV).bind fun t =>
    if pyLower t != pyLower original_title then
      (parse_publication pub false noFill).bind fun p =>
      (similar_loop original_title fuel rest).map fun tail => p :: tail
    else
      similar_loop original_title fuel rest

/-- The body of `get_similar_papers` after the original paper has been
resolved (app.py lines 267-288): read the resolved title, build the keyword
query from its first five whitespace tokens, run the second search, filter
and normalize up to `limit+1` entries, truncate to `limit`. -/
def similar_inner (title : String) (limit : Nat) (paper : PyDict)
    (search2 : String → Except String (List PyDict)) :
    Except String SimilarPapersResult :=
  (pyGet (lookupD paper "bib" (.dict [])) "title" (.str title)).bind fun otV =>
  (pyAttrStr otV).bind fun original_title =>
  (search2 (strJoin " " ((pySplitWs original_title).take 5))).bind fun pubs =>
  (similar_loop original_title (limit + 1) pubs).map fun sims =>
  ⟨sims.take limit, original_title⟩

/-- `get_similar_papers` (app.py lines 248-292): resolve the first search
result (404 when the iterator is empty or yields a falsy record), then run
`similar_inner`; any other exception becomes a 500 error. -/
def get_similar_papers (title : String) (limit : Nat)
    (search1 : Except String (List PyDict))
    (search2 : String → Except String (List PyDict)) :
    Except (Nat × String) SimilarPapersResult :=
  match search1 with
  | .error e => .error (500, "Failed to find similar papers: " ++ e)
  | .ok [] => .error (404, "Paper not found")
  | .ok (paper :: _) =>
    if pyTruthy (.dict paper) = false then .error (404, "Paper not found")
    else
      match similar_inner title limit paper search2 with
      | .ok r => .ok r
      | .error e => .error (500, "Failed to find similar papers: " ++ e)

/-!
BibTeX synthesis (`get_bibtex`, app.py lines 294-357).  The synthesis block
(lines 318-345) runs exactly when the filled paper carries no truthy
`bibtex` value (line 317); it is embedded here over the paper's `bib` value.
-/

/-- Entry-type selection of the synthesized BibTeX entry (app.py lines
319-323): `inproceedings` when `'booktitle' in bib`, else `misc` when
neither `'journal' in bib` nor `'venue' in bib`, else `article`. -/
def bibtex_entry_type (bib : PyVal) : Except String String :=
  (pyIn "booktitle" bib).bind fun bt =>
  if bt then .ok "inproceedings"
  else
    (pyIn "journal" bib).bind fun j =>
    if !j then
      (pyIn "venue" bib).map fun v =>
      if !v then "misc" else "article"
    else .ok "article"

/-- `first_author = author.split(' and ')[0] if ' and ' in author else
author` (app.py line 331). -/
def bibtex_first_author (author : PyVal) : Except String PyVal :=
  (pyIn " and " author).bind fun c =>
  if c then
    match author with
    | .str s => .ok (.str ((pySplitOn s " and ").headD ""))
    | _ => .error "AttributeError"
  else .ok author

/-- `last_name = first_author.split()[-1] if first_author else 'unknown'`
(app.py line 332); indexing `[-1]` raises `IndexError` on an empty split. -/
def bibtex_last_name (first_author : PyVal) : Except String String :=
  if pyTruthy first_author then
    match first_author with
    | .str s =>
      match (pySplitWs s).getLast? with
      | some t => .ok t
      | Option.none => .error "IndexError"
    | _ => .error "AttributeError"
  else .ok "unknown"

/-- First-non-empty venue resolution used by the synthesis (app.py line
328): `bib.get('venue', '') or bib.get('journal', '') or
bib.get('booktitle', '')` over a `bib` mapping. -/
def bib_venue (d : PyDict) : PyVal :=
  pyOr (lookupD d "venue" (.str ""))
    (pyOr (lookupD d "journal" (.str "")) (lookupD d "booktitle" (.str "")))

/-- String assembly of the synthesized entry (app.py lines 335-345): the
conditional `year` line is appended only when `year` is truthy, and the
venue line uses the `booktitle` field for `inproceedings` entries and the
`journal` field otherwise, only when `venue` is truthy. -/
def bibtex_render (entry_type cite_key : String) (author titleV year venue : PyVal) : String :=
  "@" ++ entry_type ++ "\x7b" ++ cite_key ++ ",\n"
  ++ "  author = \x7b" ++ pyStr author ++ "\x7d,\n"
  ++ "  title = \x7b" ++ pyStr titleV ++ "\x7d,\n"
  ++ (if pyTruthy year then "  year = \x7b" ++ pyStr year ++ "\x7d,\n" else "")
  ++ (if pyTruthy venue then
        (if entry_type == "inproceedings" then
          "  booktitle = \x7b" ++ pyStr venue ++ "\x7d,\n"
        else
          "  journal = \x7b" ++ pyStr venue ++ "\x7d,\n")
      else "")
  ++ "\x7d"

/-- The BibTeX synthesis block of `get_bibtex` (app.py lines 318-345), run
when no pre-supplied bibtex string is present: choose the entry type, read
author/title/year/venue from `bib`, derive the cite key from the first
author's last name and the year, and assemble the entry. -/
def synthesize_bibtex (bib : PyVal) : Except String String :=
  (bibtex_entry_type bib).bind fun entry_type =>
  (pyGet bib "author" (.str "Unknown")).bind fun author =>
  (pyGet bib "title" (.str "Unknown")).bind fun titleV =>
  (pyGet bib "year" (.str "")).bind fun yearInner =>
  (pyGet bib "pub_year" yearInner).bind fun year =>
  (pyGet bib "venue" (.str "")).bind fun v1 =>
  (pyGet bib "journal" (.str "")).bind fun v2 =>
  (pyGet bib "booktitle" (.str "")).bind fun v3 =>
  (bibtex_first_author author).bind fun first_author =>
  (bibtex_last_name first_author).map fun last_name =>
  bibtex_render entry_type (pyLower last_name ++ pyStr year) author titleV year
    (pyOr v1 (pyOr v2 v3))

/-!
OCR extraction function (`netlify/functions/ocr_extract.py`).  The request
body is modelled as an already-parsed JSON object (`PyDict`); the external
effects — base64 decoding, `urllib.request.urlretrieve`, PaddleOCR
prediction and PP-Structure analysis — are oracles in `OcrEnv`.  The
transient temp file is threaded through the result as two booleans:
whether `tempfile.NamedTemporaryFile` created it, and whether it still
exists when the handler returns.  Constant CORS headers are not modelled.
-/

/-- One prediction record of `ocr.predict` (an object with optional
`rec_texts`, `rec_scores`, `dt_polys` attributes); scores are abstracted to
integers. -/
structure PredRes where
  rec_texts : Option (List String)
  rec_scores : Option (List Int)
  dt_polys : Option (List PyVal)

/-- Oracles for the external effects of the OCR handler. -/
structure OcrEnv where
  paddle_available : Bool
  b64_decode_ok : Bool
  fetch_ok : Bool
  ocr_run : Except String (List PredRes)
  pp_structure_available : Bool
  structure_run : Except String (List PyDict)

/-- A Netlify function invocation: HTTP method and parsed JSON body. -/
structure OcrEvent where
  httpMethod : String
  body : PyDict

/-- A Netlify function response (status code and JSON body as a value). -/
structure NetlifyResponse where
  statusCode : Nat
  body : PyVal

/-- The handler's observable outcome: the response plus the state of the
transient image file. -/
structure HandlerOutput where
  response : NetlifyResponse
  tempFileCreated : Bool
  tempFileExists : Bool

/-- Per-record inner loop of `process_with_paddleocr` (ocr_extract.py lines
130-139): build one text block per recognized text, indexing scores and
polygons (`IndexError` when a present list is too short). -/
def text_blocks_loop (r : PredRes) : Nat → List String → Except String (List PyVal × List String)
  | _, [] => .ok ([], [])
  | i, t :: ts =>
    (show Except String PyVal from
      match r.rec_scores with
      | Option.none => .ok (PyVal.int 1)
      | some l =>
        match l.get? i with
        | some v => .ok (PyVal.int v)
        | Option.none => .error "IndexError").bind fun c =>
    (show Except String PyVal from
      match r.dt_polys with
      | Option.none => .ok PyVal.none
      | some l =>
        match l.get? i with
        | some v => .ok v
        | Option.none => .error "IndexError").bind fun b =>
    (text_blocks_loop r (i+1) ts).map fun pr =>
    ((PyVal.dict [("text", .str t), ("confidence", c), ("bbox", b)]) :: pr.1, t :: pr.2)

/-- Text-block extraction over all prediction records (ocr_extract.py lines
128-139): records without a `rec_texts` attribute are skipped. -/
def build_text_blocks : List PredRes → Except String (List PyVal × List String)
  | [] => .ok ([], [])
  | r :: rs =>
    (show Except String (List PyVal × List String) from
      match r.rec_texts with
      | Option.none => .ok ([], [])
      | some texts => text_blocks_loop r 0 texts).bind fun p1 =>
    (build_text_blocks rs).map fun p2 =>
    ((p1.1 ++ p2.1 : List PyVal), (p1.2 ++ p2.2 : List String))

/-- PP-Structure categorization (ocr_extract.py lines 154-180): route each
item by its `type` field into tables, figures and formulas; nested
`.get` calls on a non-dict `res` value raise. -/
def categorize_structure : List PyDict → Except String (List PyVal × List PyVal × List PyVal)
  | [] => .ok ([], [], [])
  | item :: rest =>
    let itype := lookupD item "type" (.str "text")
    let bbox := lookupD item "bbox" (.list [])
    let resV := lookupD item "res" (.dict [])
    if pyBeq itype (.str "table") then
      (pyGet resV "html" (.str "")).bind fun html =>
      (pyGet resV "cells" (.list [])).bind fun cells =>
      (categorize_structure rest).map fun out =>
      ((PyVal.dict [("type", .str "table"), ("bbox", bbox), ("html", html),
        ("cells", cells)]) :: out.1, out.2.1, out.2.2)
    else if pyBeq itype (.str "figure") then
      (pyGet resV "caption" (.str "")).bind fun cap =>
      (categorize_structure rest).map fun out =>
      (out.1, (PyVal.dict [("type", .str "figure"), ("bbox", bbox),
        ("caption", cap)]) :: out.2.1, out.2.2)
    else if pyBeq itype (.str "equation") then
      (pyGet resV "latex" (.str "")).bind fun lx =>
      (categorize_structure rest).map fun out =>
      (out.1, out.2.1, (PyVal.dict [("type", .str "formula"), ("bbox", bbox),
        ("latex", lx)]) :: out.2.2)
    else categorize_structure rest

/-- `process_with_paddleocr` (ocr_extract.py lines 99-186).  The
`extract_type` parameter is received but never read — exactly as in the
source.  The PP-Structure pass is attempted only when the import succeeds
(`pp_structure_available`); a failure of the pass itself propagates. -/
def process_with_paddleocr (image_path : String) (extract_type : PyVal)
    (env : OcrEnv) : Except String PyVal :=
  env.ocr_run.bind fun preds =>
  (build_text_blocks preds).bind fun bt =>
  (if env.pp_structure_available then
     env.structure_run.bind fun items => categorize_structure items
   else .ok ([], [], [])).map fun cat =>
  PyVal.dict [("success", .bool true), ("text_blocks", .list bt.1),
    ("tables", .list cat.1), ("figures", .list cat.2.1),
    ("formulas", .list cat.2.2), ("raw_text", .str (strJoin " " bt.2))]

/-- `fallback_ocr_response` (ocr_extract.py lines 189-208): the degraded-mode
200 response returned when PaddleOCR cannot be imported. -/
def fallback_ocr_response : NetlifyResponse :=
  ⟨200, .dict [("success", .bool true), ("fallback", .bool true),
    ("message", .str "PaddleOCR not available on server. Using client-side extraction."),
    ("text_blocks", .list []), ("tables", .list []), ("figures", .list []),
    ("formulas", .list []), ("raw_text", .str ""), ("use_client_ocr", .bool true)]⟩

/-- The inner `try/finally` of the handler once the temp file exists
(ocr_extract.py lines 78-89): run the OCR pipeline, then unlink the temp
file on both the success and the failure path. -/
def run_ocr_stage (extract_type : PyVal) (env : OcrEnv) : HandlerOutput :=
  match process_with_paddleocr "temp.png" extract_type env with
  | .ok result => ⟨⟨200, result⟩, true, false⟩
  | .error e => ⟨⟨500, .dict [("error", .str e)]⟩, true, false⟩

/-- The Netlify `handler` (ocr_extract.py lines 18-96): answer OPTIONS
preflight; 400 when neither image source is truthy; fallback response when
PaddleOCR cannot be imported; otherwise materialize the image to a temp file
(base64 decoding happens before the file is created, URL retrieval happens
after — so a failed retrieval leaves the file behind with `temp_path` still
unset) and run the OCR stage, converting any exception into a 500. -/
def handler (event : OcrEvent) (env : OcrEnv) : HandlerOutput :=
  if event.httpMethod == "OPTIONS" then
    ⟨⟨200, .str ""⟩, false, false⟩
  else
    let image_data := lookupD event.body "image" PyVal.none
    let file_url := lookupD event.body "file_url" PyVal.none
    let extract_type := lookupD event.body "extract_type" (.str "all")
    if !pyTruthy image_data && !pyTruthy file_url then
      ⟨⟨400, .dict [("error", .str "No image data or file URL provided")]⟩, false, false⟩
    else if !env.paddle_available then
      ⟨fallback_ocr_response, false, false⟩
    else if pyTruthy image_data then
      match image_data with
      | .str _ =>
        if env.b64_decode_ok then run_ocr_stage extract_type env
        else ⟨⟨500, .dict [("error", .str "binascii.Error")]⟩, false, false⟩
      | _ => ⟨⟨500, .dict [("error", .str "TypeError")]⟩, false, false⟩
    else
      match file_url with
      | .str _ =>
        if env.fetch_ok then run_ocr_stage extract_type env
        else ⟨⟨500, .dict [("error", .str "URLError")]⟩, true, true⟩
      | _ => ⟨⟨500, .dict [("error", .str "TypeError")]⟩, true, true⟩

/-- Field lookup in a JSON-object response body. -/
def bodyField (r : NetlifyResponse) (k : String) : Option PyVal :=
  match r.body with
  | .dict d =>
    match d.find? (fun e => e.1 == k) with
    | some e => some e.2
    | Option.none => Option.none
  | _ => Option.none

/-- Totalized lowercased title of a raw record, as read by the similarity
filter (`pub.get('bib', {}).get('title', '').lower()`); agrees with the
loop's reads whenever they do not raise. -/
def pubTitleLowerD (pub : PyDict) : String :=
  pyLower (match lookupD pub "bib" (.dict []) with
    | PyVal.dict d =>
      (match lookupD d "title" (.str "") with
       | PyVal.str s => s
       | _ => "")
    | _ => "")

/-!
Concrete records used by counterexamples and witnesses.
-/

/-- A raw record whose `bib` mapping is empty — in particular it has no
`author` field. -/
def c1pub : PyDict := [("bib", PyVal.dict [])]

/-- The publication `parse_publication` produces for `c1pub`. -/
def c1result : Publication :=
  { title := "Unknown Title", authors := [""], year := Option.none,
    abstract := some "", venue := some "", citations := some 0,
    url := some "", bibtex := some "", scholar_url := some "" }

/-- A raw record whose `bib` value is a string, not a mapping. -/
def c3pub : PyDict := [("bib", PyVal.str "oops")]

/-- A record whose `bib` is a mapping with a title; used to witness the
amended totality statement. -/
def c3wpub : PyDict := [("bib", PyVal.dict [("title", PyVal.str "T")])]

/-- A record that makes the `try` body of `parse_publication` raise a
`ValidationError` (non-numeric `num_citations`) while its `bib` mapping has
no `title`. -/
def c10pub : PyDict := [("bib", PyVal.dict []), ("num_citations", PyVal.str "x")]

/-- A record whose `pub_year` is a non-numeric string. -/
def c7pub : PyDict := [("bib", PyVal.dict [("pub_year", PyVal.str "abc")])]

/-- A `bib` mapping with a `booktitle` field and no pre-supplied bibtex. -/
def c5bib : PyDict :=
  [("booktitle", PyVal.str "ICML"), ("author", PyVal.str "Ada Byron"),
   ("title", PyVal.str "On Engines"), ("pub_year", PyVal.str "1843")]

/-- The entry `synthesize_bibtex` produces for `c5bib`. -/
def c5str : String :=
  "@inproceedings\x7bbyron1843,\n  author = \x7bAda Byron\x7d,\n  title = \x7bOn Engines\x7d,\n  year = \x7b1843\x7d,\n  booktitle = \x7bICML\x7d,\n\x7d"

/-- Resolved original paper for the similarity witness. -/
def c6paper : PyDict := [("bib", PyVal.dict [("title", PyVal.str "Orig")])]

/-- Second-search stream for the similarity witness: the first entry's title
matches the original case-insensitively, the second does not, the third is
beyond the `limit+1` window for `limit = 1`. -/
def c6pubs : List PyDict :=
  [[("bib", PyVal.dict [("title", PyVal.str "orig")])],
   [("bib", PyVal.dict [("title", PyVal.str "Other")])],
   [("bib", PyVal.dict [("title", PyVal.str "Third")])]]

/-- The publication normalized from the second entry of `c6pubs`. -/
def c6other : Publication :=
  { title := "Other", authors := [""], year := Option.none,
    abstract := some "", venue := some "", citations := some 0,
    url := some "", bibtex := some "", scholar_url := some "" }

/-- The similarity result for the witness instance. -/
def c6result : SimilarPapersResult := ⟨[c6other], "Orig"⟩

/-- Three-record stream for the search witness. -/
def c8pubs : List PyDict :=
  [[("bib", PyVal.dict [("title", PyVal.str "P1")])],
   [("bib", PyVal.dict [("title", PyVal.str "P2")])],
   [("bib", PyVal.dict [("title", PyVal.str "P3")])]]

/-- Normalized record with the given title and otherwise defaulted fields. -/
def plainPub (t : String) : Publication :=
  { title := t, authors := [""], year := Option.none,
    abstract := some "", venue := some "", citations := some 0,
    url := some "", bibtex := some "", scholar_url := some "" }

/-- The search result for the witness instance. -/
def c8result : SearchResult :=
  ⟨[plainPub "P1", plainPub "P2"], some 2, "machine learning chemistry"⟩

/-- OCR invocation fetching from a URL whose retrieval fails. -/
def c2event : OcrEvent :=
  ⟨"POST", [("file_url", PyVal.str "http://example.com/img.png")]⟩

/-- Environment for `c2event`: PaddleOCR importable, URL retrieval raises. -/
def c2env : OcrEnv :=
  ⟨true, true, false, .ok [], false, .ok []⟩

/-- OCR invocation with inline image data. -/
def c4event : OcrEvent := ⟨"POST", [("image", PyVal.str "aGVsbG8=")]⟩

/-- Environment in which PaddleOCR cannot be imported. -/
def c4env : OcrEnv := ⟨false, true, true, .ok [], false, .ok []⟩


/-- Pure form of the entry-type selection over a `bib` mapping. -/
def bibtex_entry_typeD (d : PyDict) : String :=
  if hasKey d "booktitle" then "inproceedings"
  else if !hasKey d "journal" && !hasKey d "venue" then "misc"
  else "article"

/-!
Helper lemmas.
-/

/-- Reduction of `Except.bind` on a success. -/
theorem except_bind_ok {α β : Type} (a : α) (f : α → Except String β) :
    Except.bind (.ok a) f = f a := rfl

/-- Reduction of `Except.bind` on a failure. -/
theorem except_bind_error {α β : Type} (e : String) (f : α → Except String β) :
    Except.bind (.error e) f = .error e := rfl

/-- Reduction of `Except.map` on a success. -/
theorem except_map_ok {α β : Type} (a : α) (f : α → β) :
    Except.map f (.ok a : Except String α) = .ok (f a) := rfl

/-- Reduction of `Except.map` on a failure. -/
theorem except_map_error {α β : Type} (e : String) (f : α → β) :
    Except.map f (.error e : Except String α) = .error e := rfl

/-- `.get` on a dict value reduces to a lookup. -/
theorem pyGet_dict (d : PyDict) (k : String) (v : PyVal) :
    pyGet (PyVal.dict d) k v = .ok (lookupD d k v) := rfl

/-- A missing key makes `lookupD` return the default. -/
theorem lookupD_of_not_hasKey (d : PyDict) (k : String) (v : PyVal)
    (h : hasKey d k = false) : lookupD d k v = v := by
  unfold hasKey at h
  unfold lookupD
  cases hf : d.find? (fun e => e.1 == k) with
  | none => rfl
  | some e => rw [hf] at h; simp [Option.isSome] at h

/-- Inversion for a successful Pydantic construction: each validated field
of the result comes from the corresponding validator. -/
theorem mkPublication_fields (t a y ab v c u bx su : PyVal) (p : Publication)
    (h : mkPublication t a y ab v c u bx su = .ok p) :
    vStr t = .ok p.title ∧ vListStr a = .ok p.authors ∧ vOptInt y = .ok p.year := by
  unfold mkPublication at h
  split at h
  next title authors year abstract venue citations url bibtex scholar
       h1 h2 h3 h4 h5 h6 h7 h8 h9 =>
    cases h
    exact ⟨h1, h2, h3⟩
  next => exact absurd h (by simp)

/-- With a mapping `bib`, the `try` body of `parse_publication` reduces to a
single validated construction. -/
theorem parse_publication_try_dict (pub : PyDict) (d : PyDict)
    (hbib : lookupD pub "bib" (.dict []) = .dict d) :
    parse_publication_try pub =
      mkPublication (lookupD d "title" (.str "Unknown Title"))
        (normalize_authors (lookupD d "author" (.str "")))
        (normalize_year (pyOr (lookupD d "pub_year" PyVal.none)
          (lookupD d "year" PyVal.none)))
        (lookupD d "abstract" (.str ""))
        (pyOr (lookupD d "venue" (.str ""))
          (pyOr (lookupD d "journal" (.str "")) (lookupD d "booktitle" (.str ""))))
        (lookupD pub "num_citations" (.int 0))
        (lookupD pub "pub_url" (.str ""))
        (lookupD pub "bibtex" (.str ""))
        (lookupD pub "url_scholarbib" (.str "")) := by
  unfold parse_publication_try
  rw [hbib]
  rfl

/-- With a mapping `bib`, the `except` branch succeeds and produces the
minimal salvaged publication. -/
theorem parse_salvage_dict (pub : PyDict) (d : PyDict)
    (hbib : lookupD pub "bib" (.dict []) = .dict d) :
    parse_salvage pub = .ok
      { title := pyStr (lookupD d "title" (.str "Unknown")), authors := [],
        year := Option.none, abstract := Option.none, venue := Option.none,
        citations := Option.none, url := Option.none, bibtex := Option.none,
        scholar_url := Option.none } := by
  unfold parse_salvage
  rw [hbib]
  rfl

/-- With `fill_details=False` the fill oracle is not consulted. -/
theorem parse_publication_false (pub : PyDict) (fill : PyDict → Except String PyDict) :
    parse_publication pub false fill =
      match parse_publication_try pub with
      | .ok p => .ok p
      | .error _ => parse_salvage pub := rfl

/-- Totality of `parse_publication` over records whose `bib` value is a
mapping: the `try` body either succeeds or its exception is absorbed by the
(succeeding) salvage branch. -/
theorem parse_publication_total (pub : PyDict) (d : PyDict)
    (fill : PyDict → Except String PyDict)
    (hbib : lookupD pub "bib" (.dict []) = .dict d) :
    ∃ p, parse_publication pub false fill = .ok p := by
  rw [parse_publication_false]
  cases htry : parse_publication_try pub with
  | ok p => exact ⟨p, rfl⟩
  | error e =>
    simp only [htry]
    exact ⟨_, parse_salvage_dict pub d hbib⟩

/-!
C1 — authors of a record with no author field.
-/

/-- C1 counterexample: for a raw record whose `bib` mapping has no `author`
field, `parse_publication` does not return an empty author list — Python's
`''.split(' and ')` is `['']`, so the authors list is `[""]`. -/
theorem c1_counterexample :
    parse_publication c1pub false noFill = .ok c1result ∧
    c1result.authors ≠ ([] : List String) := by
  exact ⟨rfl, by decide⟩

/-- C1 (amended): for every raw record whose `bib` mapping has no `author`
field, `parse_publication` does not raise; when the `try` body succeeds the
authors list is `[""]` (a single empty name), and when the `try` body raises
the salvaged publication has an empty authors list. -/
theorem c1_amended (pub : PyDict) (d : PyDict)
    (hbib : lookupD pub "bib" (.dict []) = .dict d)
    (hauthor : hasKey d "author" = false) :
    (∃ p, parse_publication pub false noFill = .ok p) ∧
    (∀ p, parse_publication_try pub = .ok p → p.authors = [""]) ∧
    (∀ p e, parse_publication_try pub = .error e →
      parse_publication pub false noFill = .ok p → p.authors = []) := by
  refine ⟨parse_publication_total pub d noFill hbib, ?_, ?_⟩
  · intro p htry
    rw [parse_publication_try_dict pub d hbib] at htry
    have h := (mkPublication_fields _ _ _ _ _ _ _ _ _ _ htry).2.1
    rw [lookupD_of_not_hasKey d "author" _ hauthor] at h
    have hred : vListStr (normalize_authors (PyVal.str "")) = .ok [""] := rfl
    rw [hred] at h
    injection h with h
    exact h.symm
  · intro p e htry hp
    rw [parse_publication_false] at hp
    rw [htry] at hp
    rw [parse_salvage_dict pub d hbib] at hp
    cases hp
    rfl

/-- C1 witness: the amended statement applied to the concrete record
`c1pub`. -/
theorem c1_witness :
    lookupD c1pub "bib" (.dict []) = PyVal.dict [] ∧
    hasKey ([] : PyDict) "author" = false ∧
    ((∃ p, parse_publication c1pub false noFill = .ok p) ∧
     (∀ p, parse_publication_try c1pub = .ok p → p.authors = [""]) ∧
     (∀ p e, parse_publication_try c1pub = .error e →
       parse_publication c1pub false noFill = .ok p → p.authors = [])) :=
  ⟨rfl, rfl, c1_amended c1pub [] rfl rfl⟩

/-!
C3 — totality of `parse_publication`.
-/

/-- C3 counterexample: on a record whose `bib` value is a string rather than
a mapping, the `try` body raises at `bib.get('author', '')` and the
`except` branch raises again at `pub.get('bib', {}).get('title', 'Unknown')`,
so `parse_publication` propagates the exception to its caller. -/
theorem c3_counterexample :
    parse_publication c3pub false noFill = .error "AttributeError" := rfl

/-- C3 (amended): `parse_publication` never propagates an error provided the
record bound to `pub` at the point of the `except` clause has a mapping
`bib` value (for `fill_details=True` this must also hold of the record
returned by a successful `scholarly.fill`); any exception of the `try` body
is converted into the minimal publication with the salvaged title, empty
authors and absent year. -/
theorem c3_amended (pub : PyDict) (d : PyDict) (fd : Bool)
    (fill : PyDict → Except String PyDict)
    (hbib : lookupD pub "bib" (.dict []) = .dict d)
    (hfill : fd = true → ∀ pub2, fill pub = .ok pub2 →
      ∃ d2, lookupD pub2 "bib" (.dict []) = .dict d2) :
    (∃ p, parse_publication pub fd fill = .ok p) ∧
    (∀ e, fd = false → parse_publication_try pub = .error e →
      parse_publication pub fd fill = .ok
        { title := pyStr (lookupD d "title" (.str "Unknown")), authors := [],
          year := Option.none, abstract := Option.none, venue := Option.none,
          citations := Option.none, url := Option.none, bibtex := Option.none,
          scholar_url := Option.none }) := by
  constructor
  · cases fd with
    | false => exact parse_publication_total pub d fill hbib
    | true =>
      unfold parse_publication
      cases hf : fill pub with
      | error e =>
        simp only [if_true, hf]
        exact ⟨_, parse_salvage_dict pub d hbib⟩
      | ok pub2 =>
        obtain ⟨d2, hd2⟩ := hfill rfl pub2 hf
        simp only [if_true, hf]
        cases htry : parse_publication_try pub2 with
        | ok p => exact ⟨p, rfl⟩
        | error e => exact ⟨_, parse_salvage_dict pub2 d2 hd2⟩
  · intro e hfd htry
    cases hfd
    rw [parse_publication_false]
    rw [htry]
    exact parse_salvage_dict pub d hbib

/-- C3 witness: the amended statement applied to the concrete record
`c3wpub` with `fill_details=False`. -/
theorem c3_witness :
    lookupD c3wpub "bib" (.dict []) = PyVal.dict [("title", PyVal.str "T")] ∧
    ((∃ p, parse_publication c3wpub false noFill = .ok p) ∧
     (∀ e, false = true → parse_publication_try c3wpub = .error e →
       parse_publication c3wpub false noFill = .ok
         { title := pyStr (lookupD [("title", PyVal.str "T")] "title" (.str "Unknown")),
           authors := [], year := Option.none, abstract := Option.none,
           venue := Option.none, citations := Option.none, url := Option.none,
           bibtex := Option.none, scholar_url := Option.none })) := by
  refine ⟨rfl, ?_⟩
  have h := c3_amended c3wpub [("title", PyVal.str "T")] false noFill rfl
    (by intro h; cases h)
  exact ⟨h.1, fun e hfd => absurd hfd (by decide)⟩

/-!
C10 — the two default titles.
-/

/-- C10: over a record whose `bib` mapping has no `title`, the normal path
of `parse_publication` defaults the title to "Unknown Title" while the
exception-recovery path defaults it to "Unknown", and the two defaults
differ. -/
theorem c10_default_titles (pub : PyDict) (d : PyDict)
    (hbib : lookupD pub "bib" (.dict []) = .dict d)
    (htitle : hasKey d "title" = false) :
    (∀ p, parse_publication_try pub = .ok p → p.title = "Unknown Title") ∧
    (∀ e, parse_publication_try pub = .error e →
      parse_publication pub false noFill = .ok
        { title := "Unknown", authors := [], year := Option.none,
          abstract := Option.none, venue := Option.none, citations := Option.none,
          url := Option.none, bibtex := Option.none, scholar_url := Option.none }) ∧
    ("Unknown" : String) ≠ "Unknown Title" := by
  refine ⟨?_, ?_, by decide⟩
  · intro p htry
    rw [parse_publication_try_dict pub d hbib] at htry
    have h := (mkPublication_fields _ _ _ _ _ _ _ _ _ _ htry).1
    rw [lookupD_of_not_hasKey d "title" _ htitle] at h
    have hred : vStr (PyVal.str "Unknown Title") = .ok "Unknown Title" := rfl
    rw [hred] at h
    injection h with h
    exact h.symm
  · intro e htry
    rw [parse_publication_false, htry]
    have h := parse_salvage_dict pub d hbib
    rw [lookupD_of_not_hasKey d "title" _ htitle] at h
    have hs : pyStr (PyVal.str "Unknown") = "Unknown" := by simp [pyStr]
    rw [hs] at h
    exact h

/-- C10 witness: the statement applied to the concrete record `c10pub`,
whose non-numeric `num_citations` makes the `try` body raise a
`ValidationError`. -/
theorem c10_witness :
    lookupD c10pub "bib" (.dict []) = PyVal.dict [] ∧
    hasKey ([] : PyDict) "title" = false ∧
    ((∀ p, parse_publication_try c10pub = .ok p → p.title = "Unknown Title") ∧
     (∀ e, parse_publication_try c10pub = .error e →
       parse_publication c10pub false noFill = .ok
         { title := "Unknown", authors := [], year := Option.none,
           abstract := Option.none, venue := Option.none, citations := Option.none,
           url := Option.none, bibtex := Option.none, scholar_url := Option.none }) ∧
     ("Unknown" : String) ≠ "Unknown Title") :=
  ⟨rfl, rfl, c10_default_titles c10pub [] rfl rfl⟩

/-!
C7 — non-numeric year strings.
-/

/-- C7: for every record whose `bib` mapping is present and whose resolved
year value (`bib.get('pub_year') or bib.get('year')`) is a string on which
`int()` fails, `parse_publication` succeeds and the resulting year is
absent. -/
theorem c7_nonnumeric_year (pub : PyDict) (d : PyDict) (s : String)
    (hbib : lookupD pub "bib" (.dict []) = .dict d)
    (hyear : pyOr (lookupD d "pub_year" PyVal.none) (lookupD d "year" PyVal.none)
      = .str s)
    (hnum : pyIntOfString s = Option.none) :
    ∃ p, parse_publication pub false noFill = .ok p ∧ p.year = Option.none := by
  cases htry : parse_publication_try pub with
  | ok q =>
    refine ⟨q, by rw [parse_publication_false, htry], ?_⟩
    rw [parse_publication_try_dict pub d hbib] at htry
    have h := (mkPublication_fields _ _ _ _ _ _ _ _ _ _ htry).2.2
    rw [hyear] at h
    by_cases hs : s = ""
    · subst hs
      have hred : normalize_year (PyVal.str "") = PyVal.str "" := rfl
      rw [hred] at h
      simp only [vOptInt, hnum] at h
      cases h
    · have hse : s.isEmpty = false := by
        cases hse : s.isEmpty with
        | true => exact absurd ((String.isEmpty_iff s).mp hse) hs
        | false => rfl
      have htr : pyTruthy (PyVal.str s) = true := by
        simp [pyTruthy, hse]
      have hred : normalize_year (PyVal.str s) = PyVal.none := by
        unfold normalize_year
        rw [htr]
        simp only [pyInt, hnum, if_true]
      rw [hred] at h
      have hok : vOptInt PyVal.none = .ok Option.none := rfl
      rw [hok] at h
      injection h with h
      exact h.symm
  | error e =>
    refine ⟨⟨pyStr (lookupD d "title" (.str "Unknown")), [], Option.none,
      Option.none, Option.none, Option.none, Option.none, Option.none,
      Option.none⟩, ?_, rfl⟩
    rw [parse_publication_false, htry]
    exact parse_salvage_dict pub d hbib

/-- C7 witness: the statement applied to the concrete record `c7pub`, whose
`pub_year` is the non-numeric string "abc". -/
theorem c7_witness :
    lookupD c7pub "bib" (.dict []) = PyVal.dict [("pub_year", PyVal.str "abc")] ∧
    pyOr (lookupD [("pub_year", PyVal.str "abc")] "pub_year" PyVal.none)
      (lookupD [("pub_year", PyVal.str "abc")] "year" PyVal.none) = .str "abc" ∧
    pyIntOfString "abc" = Option.none ∧
    (∃ p, parse_publication c7pub false noFill = .ok p ∧ p.year = Option.none) :=
  ⟨rfl, rfl, rfl, c7_nonnumeric_year c7pub [("pub_year", PyVal.str "abc")] "abc" rfl rfl rfl⟩

/-!
C8 — the search endpoint.
-/

/-- Normalization preserves the number of streamed records. -/
theorem parse_stream_length : ∀ (l : List PyDict) (ps : List Publication),
    parse_stream l = .ok ps → ps.length = l.length := by
  intro l
  induction l with
  | nil =>
    intro ps h
    cases h
    rfl
  | cons p rest ih =>
    intro ps h
    unfold parse_stream at h
    cases hp : parse_publication p false noFill with
    | error e =>
      rw [hp] at h
      simp only [except_bind_error] at h
      exact Except.noConfusion h
    | ok q =>
      rw [hp] at h
      simp only [except_bind_ok] at h
      cases hrest : parse_stream rest with
      | error e =>
        rw [hrest] at h
        simp only [except_map_error] at h
        exact Except.noConfusion h
      | ok qs =>
        rw [hrest] at h
        simp only [except_map_ok] at h
        cases h
        simp [ih qs hrest]

/-- C8: whenever the publication-search endpoint succeeds on a stream, it
returns at most `limit` normalized records — exactly `limit` when the stream
yields at least that many — with `total_results` equal to the list's length
and the query echoed. -/
theorem c8_search_publications (query : String) (limit : Nat)
    (pubs : List PyDict) (r : SearchResult)
    (h : search_publications query limit (.ok pubs) = .ok r) :
    r.publications.length ≤ limit ∧
    (limit ≤ pubs.length → r.publications.length = limit) ∧
    r.total_results = some (r.publications.length : Int) ∧
    r.query = query := by
  unfold search_publications at h
  simp only [except_bind_ok] at h
  cases hps : parse_stream (pubs.take limit) with
  | error e =>
    rw [hps] at h
    simp only [except_map_error] at h
    exact Except.noConfusion h
  | ok ps =>
    rw [hps] at h
    simp only [except_map_ok] at h
    cases h
    have hlen := parse_stream_length _ _ hps
    rw [List.length_take] at hlen
    refine ⟨?_, ?_, rfl, rfl⟩
    · rw [hlen]
      exact Nat.min_le_left _ _
    · intro hge
      rw [hlen]
      exact Nat.min_eq_left hge

/-- C8 witness: the statement applied to a concrete query, limit 2 and a
three-record stream. -/
theorem c8_witness :
    search_publications "machine learning chemistry" 2 (.ok c8pubs) = .ok c8result ∧
    (c8result.publications.length ≤ 2 ∧
     (2 ≤ c8pubs.length → c8result.publications.length = 2) ∧
     c8result.total_results = some (c8result.publications.length : Int) ∧
     c8result.query = "machine learning chemistry") :=
  ⟨rfl, c8_search_publications "machine learning chemistry" 2 c8pubs c8result rfl⟩

/-!
C6 — similarity filtering.
-/

/-- When the loop's title reads succeed, the totalized lowercased title
agrees with the value the loop compared. -/
theorem pubTitleLowerD_eq (pub : PyDict) (tV : PyVal) (t : String)
    (hg : pyGet (lookupD pub "bib" (.dict [])) "title" (.str "") = .ok tV)
    (ht : pyAttrStr tV = .ok t) :
    pubTitleLowerD pub = pyLower t := by
  unfold pubTitleLowerD
  cases hbv : lookupD pub "bib" (.dict []) with
  | dict d =>
    rw [hbv, pyGet_dict] at hg
    injection hg with hg
    cases tV with
    | str s =>
      injection ht with ht
      dsimp only
      rw [hg, ht]
    | int n => exact Except.noConfusion ht
    | bool b => exact Except.noConfusion ht
    | none => exact Except.noConfusion ht
    | list xs => exact Except.noConfusion ht
    | dict d2 => exact Except.noConfusion ht
  | str s => rw [hbv] at hg; exact Except.noConfusion hg
  | int n => rw [hbv] at hg; exact Except.noConfusion hg
  | bool b => rw [hbv] at hg; exact Except.noConfusion hg
  | none => rw [hbv] at hg; exact Except.noConfusion hg
  | list xs => rw [hbv] at hg; exact Except.noConfusion hg

/-- The similarity loop only ever reads its first `fuel` stream entries. -/
theorem similar_loop_take (ot : String) : ∀ (fuel : Nat) (pubs : List PyDict),
    similar_loop ot fuel (pubs.take fuel) = similar_loop ot fuel pubs := by
  intro fuel
  induction fuel with
  | zero =>
    intro pubs
    cases pubs <;> rfl
  | succ fuel ih =>
    intro pubs
    cases pubs with
    | nil => rfl
    | cons pub rest =>
      rw [List.take_succ_cons]
      show similar_loop ot (fuel+1) (pub :: rest.take fuel)
        = similar_loop ot (fuel+1) (pub :: rest)
      unfold similar_loop
      simp only [ih]

/-- Characterization of a successful run of the similarity loop: it returns
the normalizations of exactly those of the first `fuel` entries whose
lowercased title differs from the lowercased original title. -/
theorem similar_loop_ok (ot : String) : ∀ (fuel : Nat) (pubs : List PyDict)
    (out : List Publication), similar_loop ot fuel pubs = .ok out →
    out = ((pubs.take fuel).filter
      (fun p => pubTitleLowerD p != pyLower ot)).map parsePubD := by
  intro fuel
  induction fuel with
  | zero =>
    intro pubs out h
    cases pubs with
    | nil => cases h; rfl
    | cons pub rest => cases h; rfl
  | succ fuel ih =>
    intro pubs out h
    cases pubs with
    | nil => cases h; rfl
    | cons pub rest =>
      unfold similar_loop at h
      cases hg : pyGet (lookupD pub "bib" (.dict [])) "title" (.str "") with
      | error e =>
        rw [hg] at h
        simp only [except_bind_error] at h
        exact Except.noConfusion h
      | ok tV =>
        rw [hg] at h
        simp only [except_bind_ok] at h
        cases ht : pyAttrStr tV with
        | error e =>
          rw [ht] at h
          simp only [except_bind_error] at h
          exact Except.noConfusion h
        | ok t =>
          rw [ht] at h
          simp only [except_bind_ok] at h
          have htitle := pubTitleLowerD_eq pub tV t hg ht
          rw [List.take_succ_cons, List.filter_cons, htitle]
          by_cases hcond : (pyLower t != pyLower ot) = true
          · rw [if_pos hcond] at h
            cases hp : parse_publication pub false noFill with
            | error e =>
              rw [hp] at h
              simp only [except_bind_error] at h
              exact Except.noConfusion h
            | ok p =>
              rw [hp] at h
              simp only [except_bind_ok] at h
              cases hrec : similar_loop ot fuel rest with
              | error e =>
                rw [hrec] at h
                simp only [except_map_error] at h
                exact Except.noConfusion h
              | ok tail =>
                rw [hrec] at h
                simp only [except_map_ok] at h
                cases h
                rw [if_pos hcond, List.map_cons]
                have hpd : parsePubD pub = p := by
                  unfold parsePubD
                  rw [hp]
                rw [hpd, ih rest tail hrec]
          · rw [if_neg hcond] at h
            rw [if_neg hcond]
            exact ih rest out h

/-- C6: whenever the similar-papers endpoint succeeds, its result list is
the truncation to `limit` of the normalizations of those of the first
`limit+1` second-search entries whose title does not match the resolved
original title case-insensitively (so every matching entry is excluded), the
list has at most `limit` entries, and entries of the stream beyond the first
`limit+1` are never examined. -/
theorem c6_similarity_filtering (title : String) (limit : Nat)
    (paper : PyDict) (rest pubs : List PyDict) (r : SimilarPapersResult)
    (h : get_similar_papers title limit (.ok (paper :: rest))
      (fun _ => .ok pubs) = .ok r) :
    r.similar_papers = (((pubs.take (limit+1)).filter
      (fun p => pubTitleLowerD p != pyLower r.original_title)).map parsePubD).take limit ∧
    r.similar_papers.length ≤ limit ∧
    get_similar_papers title limit (.ok (paper :: rest))
      (fun _ => .ok (pubs.take (limit+1))) = .ok r := by
  unfold get_similar_papers at h ⊢
  dsimp only at h ⊢
  by_cases hpt : pyTruthy (.dict paper) = false
  · rw [if_pos hpt] at h
    exact Except.noConfusion h
  · rw [if_neg hpt] at h
    rw [if_neg hpt]
    cases hin : similar_inner title limit paper (fun _ => .ok pubs) with
    | error e =>
      rw [hin] at h
      exact Except.noConfusion h
    | ok r0 =>
      rw [hin] at h
      cases h
      unfold similar_inner at hin
      cases hg : pyGet (lookupD paper "bib" (.dict [])) "title" (.str title) with
      | error e =>
        rw [hg] at hin
        simp only [except_bind_error] at hin
        exact Except.noConfusion hin
      | ok otV =>
        rw [hg] at hin
        simp only [except_bind_ok] at hin
        cases hot : pyAttrStr otV with
        | error e =>
          rw [hot] at hin
          simp only [except_bind_error] at hin
          exact Except.noConfusion hin
        | ok ot =>
          rw [hot] at hin
          simp only [except_bind_ok, except_bind_ok] at hin
          cases hloop : similar_loop ot (limit + 1) pubs with
          | error e =>
            rw [hloop] at hin
            simp only [except_bind_ok, except_map_error] at hin
            exact Except.noConfusion hin
          | ok sims =>
            rw [hloop] at hin
            simp only [except_bind_ok, except_map_ok] at hin
            cases hin
            refine ⟨?_, ?_, ?_⟩
            · show sims.take limit = _
              rw [similar_loop_ok ot (limit+1) pubs sims hloop]
            · show (sims.take limit).length ≤ limit
              rw [List.length_take]
              exact Nat.min_le_left _ _
            · unfold similar_inner
              rw [hg]
              simp only [except_bind_ok]
              rw [hot]
              simp only [except_bind_ok]
              rw [similar_loop_take ot (limit+1) pubs, hloop]
              rfl

/-- C6 witness: the statement applied to a concrete resolved paper, a
three-entry stream whose first entry matches the original title up to case,
and `limit = 1`. -/
theorem c6_witness :
    get_similar_papers "q" 1 (.ok [c6paper]) (fun _ => .ok c6pubs) = .ok c6result ∧
    (c6result.similar_papers = (((c6pubs.take 2).filter
      (fun p => pubTitleLowerD p != pyLower c6result.original_title)).map parsePubD).take 1 ∧
     c6result.similar_papers.length ≤ 1 ∧
     get_similar_papers "q" 1 (.ok [c6paper])
       (fun _ => .ok (c6pubs.take 2)) = .ok c6result) := by
  have h : get_similar_papers "q" 1 (.ok [c6paper]) (fun _ => .ok c6pubs)
      = .ok c6result := rfl
  exact ⟨h, c6_similarity_filtering "q" 1 c6paper [] c6pubs c6result h⟩

/-!
C5 — BibTeX synthesis.
-/

/-- Associativity of string concatenation. -/
theorem str_append_assoc (a b c : String) : a ++ b ++ c = a ++ (b ++ c) := by
  cases a
  cases b
  cases c
  exact congrArg String.mk (List.append_assoc _ _ _)

/-- Over a mapping, the entry-type selection reduces to its pure form. -/
theorem bibtex_entry_type_dict (d : PyDict) :
    bibtex_entry_type (.dict d) = .ok (bibtex_entry_typeD d) := by
  unfold bibtex_entry_type bibtex_entry_typeD
  cases hbt : hasKey d "booktitle" with
  | true => simp [pyIn, hbt, except_bind_ok, except_map_ok]
  | false =>
    cases hj : hasKey d "journal" with
    | true => simp [pyIn, hbt, hj, except_bind_ok, except_map_ok]
    | false =>
      cases hv : hasKey d "venue" with
      | true => simp [pyIn, hbt, hj, hv, except_bind_ok, except_map_ok]
      | false => simp [pyIn, hbt, hj, hv, except_bind_ok, except_map_ok]

/-- Over a mapping, the synthesis reduces to the cite-key computation and
the final rendering. -/
theorem synthesize_bibtex_dict (d : PyDict) :
    synthesize_bibtex (.dict d) =
      (bibtex_first_author (lookupD d "author" (.str "Unknown"))).bind fun fa =>
      (bibtex_last_name fa).map fun ln =>
      bibtex_render (bibtex_entry_typeD d)
        (pyLower ln ++ pyStr (lookupD d "pub_year" (lookupD d "year" (.str ""))))
        (lookupD d "author" (.str "Unknown")) (lookupD d "title" (.str "Unknown"))
        (lookupD d "pub_year" (lookupD d "year" (.str "")))
        (bib_venue d) := by
  unfold synthesize_bibtex
  rw [bibtex_entry_type_dict]
  rfl

/-- The rendered entry always starts with `@`, the entry type and an opening
brace. -/
theorem bibtex_render_prefix (et ck : String) (a t2 y v : PyVal) :
    ∃ r2, bibtex_render et ck a t2 y v = ("@" ++ et ++ "\x7b") ++ r2 := by
  refine ⟨ck ++ ",\n" ++ "  author = \x7b" ++ pyStr a ++ "\x7d,\n"
    ++ "  title = \x7b" ++ pyStr t2 ++ "\x7d,\n"
    ++ (if pyTruthy y then "  year = \x7b" ++ pyStr y ++ "\x7d,\n" else "")
    ++ (if pyTruthy v then
          (if et == "inproceedings" then "  booktitle = \x7b" ++ pyStr v ++ "\x7d,\n"
           else "  journal = \x7b" ++ pyStr v ++ "\x7d,\n")
        else "")
    ++ "\x7d", ?_⟩
  unfold bibtex_render
  simp only [str_append_assoc]

/-- For an `inproceedings` entry with a truthy venue, the rendered entry
ends with the `booktitle` field holding the venue, directly before the
closing brace. -/
theorem bibtex_render_booktitle (ck : String) (a t2 y v : PyVal)
    (hv : pyTruthy v = true) :
    ∃ r2, bibtex_render "inproceedings" ck a t2 y v
      = r2 ++ ("  booktitle = \x7b" ++ pyStr v ++ "\x7d,\n\x7d") := by
  refine ⟨"@" ++ "inproceedings" ++ "\x7b" ++ ck ++ ",\n"
    ++ "  author = \x7b" ++ pyStr a ++ "\x7d,\n"
    ++ "  title = \x7b" ++ pyStr t2 ++ "\x7d,\n"
    ++ (if pyTruthy y then "  year = \x7b" ++ pyStr y ++ "\x7d,\n" else ""), ?_⟩
  unfold bibtex_render
  rw [if_pos hv]
  rw [if_pos (show (("inproceedings" : String) == "inproceedings") = true by decide)]
  have hlit : ("\x7d,\n\x7d" : String) = "\x7d,\n" ++ "\x7d" := rfl
  rw [hlit]
  simp only [str_append_assoc]

/-- C5: for every `bib` mapping on which the synthesis block succeeds, the
synthesized entry type is `inproceedings` when a `booktitle` field is
present, `misc` when (absent that) neither a `journal` nor a `venue` field
is present, and `article` otherwise; and for an `inproceedings` entry with a
truthy resolved venue the venue value is emitted under the `booktitle`
field, directly before the closing brace — no `journal` field follows it. -/
theorem c5_bibtex_synthesis (d : PyDict) (s : String)
    (h : synthesize_bibtex (.dict d) = .ok s) :
    (hasKey d "booktitle" = true → ∃ r2, s = "@inproceedings\x7b" ++ r2) ∧
    (hasKey d "booktitle" = false → hasKey d "journal" = false →
      hasKey d "venue" = false → ∃ r2, s = "@misc\x7b" ++ r2) ∧
    (hasKey d "booktitle" = false →
      (hasKey d "journal" = true ∨ hasKey d "venue" = true) →
      ∃ r2, s = "@article\x7b" ++ r2) ∧
    (hasKey d "booktitle" = true → pyTruthy (bib_venue d) = true →
      ∃ r2, s = r2 ++ ("  booktitle = \x7b" ++ pyStr (bib_venue d) ++ "\x7d,\n\x7d")) := by
  rw [synthesize_bibtex_dict] at h
  cases hfa : bibtex_first_author (lookupD d "author" (.str "Unknown")) with
  | error e =>
    rw [hfa] at h
    simp only [except_bind_error] at h
    exact Except.noConfusion h
  | ok fa =>
    rw [hfa] at h
    simp only [except_bind_ok] at h
    cases hln : bibtex_last_name fa with
    | error e =>
      rw [hln] at h
      simp only [except_map_error] at h
      exact Except.noConfusion h
    | ok ln =>
      rw [hln] at h
      simp only [except_map_ok] at h
      injection h with h
      refine ⟨?_, ?_, ?_, ?_⟩
      · intro hbt
        have het : bibtex_entry_typeD d = "inproceedings" := by
          unfold bibtex_entry_typeD
          simp [hbt]
        rw [het] at h
        obtain ⟨r2, hr⟩ := bibtex_render_prefix "inproceedings"
          (pyLower ln ++ pyStr (lookupD d "pub_year" (lookupD d "year" (.str ""))))
          (lookupD d "author" (.str "Unknown")) (lookupD d "title" (.str "Unknown"))
          (lookupD d "pub_year" (lookupD d "year" (.str ""))) (bib_venue d)
        exact ⟨r2, by rw [← h, hr]; rfl⟩
      · intro hbt hj hv
        have het : bibtex_entry_typeD d = "misc" := by
          unfold bibtex_entry_typeD
          simp [hbt, hj, hv]
        rw [het] at h
        obtain ⟨r2, hr⟩ := bibtex_render_prefix "misc"
          (pyLower ln ++ pyStr (lookupD d "pub_year" (lookupD d "year" (.str ""))))
          (lookupD d "author" (.str "Unknown")) (lookupD d "title" (.str "Unknown"))
          (lookupD d "pub_year" (lookupD d "year" (.str ""))) (bib_venue d)
        exact ⟨r2, by rw [← h, hr]; rfl⟩
      · intro hbt hjv
        have het : bibtex_entry_typeD d = "article" := by
          unfold bibtex_entry_typeD
          cases hjv with
          | inl hj => simp [hbt, hj]
          | inr hv => simp [hbt, hv]
        rw [het] at h
        obtain ⟨r2, hr⟩ := bibtex_render_prefix "article"
          (pyLower ln ++ pyStr (lookupD d "pub_year" (lookupD d "year" (.str ""))))
          (lookupD d "author" (.str "Unknown")) (lookupD d "title" (.str "Unknown"))
          (lookupD d "pub_year" (lookupD d "year" (.str ""))) (bib_venue d)
        exact ⟨r2, by rw [← h, hr]; rfl⟩
      · intro hbt hv
        have het : bibtex_entry_typeD d = "inproceedings" := by
          unfold bibtex_entry_typeD
          simp [hbt]
        rw [het] at h
        obtain ⟨r2, hr⟩ := bibtex_render_booktitle
          (pyLower ln ++ pyStr (lookupD d "pub_year" (lookupD d "year" (.str ""))))
          (lookupD d "author" (.str "Unknown")) (lookupD d "title" (.str "Unknown"))
          (lookupD d "pub_year" (lookupD d "year" (.str ""))) (bib_venue d) hv
        exact ⟨r2, by rw [← h, hr]⟩

/-- C5 witness: the statement applied to the concrete mapping `c5bib`. -/
theorem c5_witness :
    synthesize_bibtex (.dict c5bib) = .ok c5str ∧
    ((hasKey c5bib "booktitle" = true → ∃ r2, c5str = "@inproceedings\x7b" ++ r2) ∧
     (hasKey c5bib "booktitle" = false → hasKey c5bib "journal" = false →
       hasKey c5bib "venue" = false → ∃ r2, c5str = "@misc\x7b" ++ r2) ∧
     (hasKey c5bib "booktitle" = false →
       (hasKey c5bib "journal" = true ∨ hasKey c5bib "venue" = true) →
       ∃ r2, c5str = "@article\x7b" ++ r2) ∧
     (hasKey c5bib "booktitle" = true → pyTruthy (bib_venue c5bib) = true →
       ∃ r2, c5str = r2 ++ ("  booktitle = \x7b" ++ pyStr (bib_venue c5bib)
         ++ "\x7d,\n\x7d"))) := by
  have h : synthesize_bibtex (.dict c5bib) = .ok c5str := by
    have h1 : bibtex_first_author (lookupD c5bib "author" (.str "Unknown"))
        = .ok (.str "Ada Byron") := rfl
    have h3 : bibtex_last_name (.str "Ada Byron") = .ok "Byron" := rfl
    rw [synthesize_bibtex_dict, h1]
    simp only [except_bind_ok]
    rw [h3]
    simp only [except_map_ok]
    have e1 : lookupD c5bib "pub_year" (lookupD c5bib "year" (.str ""))
        = PyVal.str "1843" := rfl
    have e2 : lookupD c5bib "author" (.str "Unknown") = PyVal.str "Ada Byron" := rfl
    have e3 : lookupD c5bib "title" (.str "Unknown") = PyVal.str "On Engines" := rfl
    have e4 : bib_venue c5bib = PyVal.str "ICML" := rfl
    have e5 : bibtex_entry_typeD c5bib = "inproceedings" := rfl
    rw [e1, e2, e3, e4, e5]
    have p1 : pyStr (PyVal.str "1843") = "1843" := by simp [pyStr]
    have p2 : pyStr (PyVal.str "Ada Byron") = "Ada Byron" := by simp [pyStr]
    have p3 : pyStr (PyVal.str "On Engines") = "On Engines" := by simp [pyStr]
    have p4 : pyStr (PyVal.str "ICML") = "ICML" := by simp [pyStr]
    unfold bibtex_render
    rw [p1, p2, p3, p4]
    rfl
  exact ⟨h, c5_bibtex_synthesis c5bib c5str h⟩

/-!
C2 — temp-file cleanup.
-/

/-- C2 evaluation at the failing input: a request that supplies only a
`file_url` whose retrieval raises.  `tempfile.NamedTemporaryFile` has
already created the file, but `temp_path` is assigned only after
`urlretrieve` succeeds, so the `finally` cleanup never sees the file: the
handler returns 500 with the transient image file still on disk. -/
theorem c2_leaked_temp_file :
    (handler c2event c2env).response.statusCode = 500 ∧
    (handler c2event c2env).tempFileCreated = true ∧
    (handler c2event c2env).tempFileExists = true := ⟨rfl, rfl, rfl⟩

/-!
C4 — fallback when PaddleOCR is unavailable.
-/

/-- C4: for every non-preflight request that supplies a truthy image source,
if PaddleOCR cannot be imported the handler returns the fallback response —
status 200 with `success=true`, `fallback=true` and empty detection lists —
regardless of which source was supplied. -/
theorem c4_ocr_fallback (ev : OcrEvent) (env : OcrEnv)
    (hm : (ev.httpMethod == "OPTIONS") = false)
    (hp : env.paddle_available = false)
    (hsrc : pyTruthy (lookupD ev.body "image" PyVal.none) = true ∨
            pyTruthy (lookupD ev.body "file_url" PyVal.none) = true) :
    handler ev env = ⟨fallback_ocr_response, false, false⟩ ∧
    fallback_ocr_response.statusCode = 200 ∧
    bodyField fallback_ocr_response "success" = some (.bool true) ∧
    bodyField fallback_ocr_response "fallback" = some (.bool true) ∧
    bodyField fallback_ocr_response "text_blocks" = some (.list []) ∧
    bodyField fallback_ocr_response "tables" = some (.list []) ∧
    bodyField fallback_ocr_response "figures" = some (.list []) ∧
    bodyField fallback_ocr_response "formulas" = some (.list []) := by
  have hcond : (!pyTruthy (lookupD ev.body "image" PyVal.none) &&
      !pyTruthy (lookupD ev.body "file_url" PyVal.none)) = false := by
    cases hsrc with
    | inl hi => simp [hi]
    | inr hf => simp [hf]
  refine ⟨?_, rfl, rfl, rfl, rfl, rfl, rfl, rfl⟩
  simp [handler, hm, hp, hcond]

/-- C4 witness: the statement applied to a concrete inline-image request in
an environment without PaddleOCR. -/
theorem c4_witness :
    (c4event.httpMethod == "OPTIONS") = false ∧
    c4env.paddle_available = false ∧
    pyTruthy (lookupD c4event.body "image" PyVal.none) = true ∧
    (handler c4event c4env = ⟨fallback_ocr_response, false, false⟩ ∧
     fallback_ocr_response.statusCode = 200 ∧
     bodyField fallback_ocr_response "success" = some (.bool true) ∧
     bodyField fallback_ocr_response "fallback" = some (.bool true) ∧
     bodyField fallback_ocr_response "text_blocks" = some (.list []) ∧
     bodyField fallback_ocr_response "tables" = some (.list []) ∧
     bodyField fallback_ocr_response "figures" = some (.list []) ∧
     bodyField fallback_ocr_response "formulas" = some (.list [])) :=
  ⟨rfl, rfl, rfl, c4_ocr_fallback c4event c4env rfl rfl (Or.inl rfl)⟩

/-!
C9 — the `extract_type` selector never influences the response.
-/

/-- C9: two invocations whose bodies are identical except for the value of
the `extract_type` field produce identical outcomes (response and file
effects): the selector is read and passed to `process_with_paddleocr`, which
never uses it. -/
theorem c9_extract_type_irrelevant (method : String) (rest : PyDict)
    (et1 et2 : PyVal) (env : OcrEnv) :
    handler ⟨method, ("extract_type", et1) :: rest⟩ env =
    handler ⟨method, ("extract_type", et2) :: rest⟩ env := rfl
